import Mathlib

/-!
# Verification of the parmelan-trip route pipeline

Shallow embedding of the two source files of the repository:

* `src/combine_routes.py` — the Route Stitcher (`combine_routes`), modelled
  over `ℚ` (exact rational arithmetic stands in for Python floats; every
  claim checked here is structural, not about rounding).
* `src/gpx_converter.py` — the Distance Function (`calculate_distance`),
  the Track Accumulator (the point loop of `convert_gpx_to_json`) and the
  Path Projector (`create_svg_path_from_coordinates`), modelled over `ℝ`
  because the haversine formula uses transcendental functions.

File I/O and console printing are out of scope (per the spec); a function
that writes a file on success and returns early on failure is modelled as
returning `Option`: `some` is the dataset written, `none` means the
invocation returned before writing any output.
-/

/-! ## Data model for `combine_routes.py`

A point of a per-day route JSON file (`route-day1.json` / `route-day2.json`)
carries `lat`, `lon`, `elevation`, `time`, `distance`.  The source reads the
distance with `point.get('distance', 0)`, so `distance` is modelled as an
`Option` and read through `dist0` below; the other fields are only copied. -/

structure JPoint where
  lat : ℚ
  lon : ℚ
  elevation : ℚ
  time : Option String
  distance : Option ℚ
deriving DecidableEq, Repr

/-- `point.get('distance', 0)` of `src/combine_routes.py`. -/
def JPoint.dist0 (p : JPoint) : ℚ :=
  p.distance.getD 0

/-- A per-day route dataset as read from JSON.  `total_distance` is read in
the source with `.get('total_distance', 0)` hence modelled as an `Option`;
`points` is read with mandatory indexing `data['points']`. -/
structure RouteData where
  total_distance : Option ℚ
  start_time : Option String
  end_time : Option String
  points : List JPoint
deriving DecidableEq, Repr

/-- A combined point: `point.copy()` with `day`, `original_distance` added and
`distance` overwritten (lines 52-66 of `src/combine_routes.py`). -/
structure CPoint where
  lat : ℚ
  lon : ℚ
  elevation : ℚ
  time : Option String
  day : ℕ
  original_distance : ℚ
  distance : ℚ
deriving DecidableEq, Repr

/-- The combined dataset written to `data/route-combined.json`
(lines 69-80 of `src/combine_routes.py`). -/
structure CombinedData where
  total_distance : ℚ
  day1_distance : ℚ
  day2_distance : ℚ
  start_time : Option String
  end_time : Option String
  day1_start_index : ℕ
  day1_end_index : ℕ
  day2_start_index : ℕ
  day2_end_index : ℕ
  points : List CPoint
deriving DecidableEq, Repr

/-- Default points used with `List.getD` in theorem statements. -/
def jdflt : JPoint := ⟨0, 0, 0, none, none⟩

def cdflt : CPoint := ⟨0, 0, 0, none, 1, 0, 0⟩

/-- The Day-1 loop of `combine_routes` (lines 52-58 of
`src/combine_routes.py`): each point is stamped with the running
`cumulative_distance` *before* the latter is reassigned to the point's own
original distance.  Returns the emitted points together with the final value
of `cumulative_distance`. -/
def stitchDay1 (cum : ℚ) : List JPoint → List CPoint × ℚ
  | [] => ([], cum)
  | p :: rest =>
    let r := stitchDay1 p.dist0 rest
    (⟨p.lat, p.lon, p.elevation, p.time, 1, p.dist0, cum⟩ :: r.1, r.2)

/-- The Day-2 loop of `combine_routes` (lines 61-66): each point gets
`distance = cumulative_distance + point.get('distance', 0)`. -/
def stitchDay2 (cum : ℚ) (ps : List JPoint) : List CPoint :=
  ps.map fun p => ⟨p.lat, p.lon, p.elevation, p.time, 2, p.dist0, cum + p.dist0⟩

/-- The core of `combine_routes` (`src/combine_routes.py`, lines 23-85),
after the two per-day JSON files have been loaded.  A `none` argument is a
dataset that failed to load (`load_route_data` returned `None`); a `none`
result is an invocation that returned before writing the output file. -/
def combine_routes (day1_data day2_data : Option RouteData) : Option CombinedData :=
  match day1_data, day2_data with
  | some d1, some d2 =>
    if d1.points = [] ∨ d2.points = [] then none
    else
      let day1_distance := d1.total_distance.getD 0
      let day2_distance := d2.total_distance.getD 0
      let s := stitchDay1 0 d1.points
      let combined_points := s.1 ++ stitchDay2 s.2 d2.points
      some
        { total_distance := day1_distance + day2_distance
          day1_distance := day1_distance
          day2_distance := day2_distance
          start_time := d1.start_time
          end_time := d2.end_time
          day1_start_index := 0
          day1_end_index := d1.points.length - 1
          day2_start_index := d1.points.length
          day2_end_index := combined_points.length - 1
          points := combined_points }
  | _, _ => none

/-! ## Data model and operations of `src/gpx_converter.py`

Coordinates and distances are modelled over `ℝ`; the haversine formula uses
`Real.sin`, `Real.cos`, `Real.sqrt` and `Real.arcsin` (Python's `math.asin`
restricted to `[-1, 1]`; every argument passed here is a square root of a
non-negative sum of squares, and non-negativity is all the theorems use). -/

/-- `math.radians` — degrees to radians. -/
noncomputable def radians (x : ℝ) : ℝ :=
  x * (Real.pi / 180)

/-- `calculate_distance` (src/gpx_converter.py, lines 20-31): haversine
great-circle distance in kilometers, Earth radius 6371 km. -/
noncomputable def calculate_distance (lat1 lon1 lat2 lon2 : ℝ) : ℝ :=
  let R : ℝ := 6371
  let rlat1 := radians lat1
  let rlon1 := radians lon1
  let rlat2 := radians lat2
  let rlon2 := radians lon2
  let dlat := rlat2 - rlat1
  let dlon := rlon2 - rlon1
  let a := Real.sin (dlat / 2) ^ 2 + Real.cos rlat1 * Real.cos rlat2 * Real.sin (dlon / 2) ^ 2
  let c := 2 * Real.arcsin (Real.sqrt a)
  R * c

/-- An input GPS sample as exposed by the parsing collaborator: elevation and
time are optional (absent is distinct from zero). -/
structure GPoint where
  latitude : ℝ
  longitude : ℝ
  elevation : Option ℝ
  time : Option String

/-- A route point as stored in `all_points` (lines 84-90): elevation has been
coerced with `point.elevation if point.elevation is not None else 0`
(line 73), and `distance` carries the running total at emission time. -/
structure APoint where
  lat : ℝ
  lon : ℝ
  elevation : ℝ
  time : Option String
  distance : ℝ

def gdflt : GPoint := ⟨0, 0, none, none⟩

def adflt : APoint := ⟨0, 0, 0, none, 0⟩

/-- The accumulation loop of `convert_gpx_to_json` (lines 70-100) after the
first point has set `prev_lat, prev_lon` (`prev` here) and `total_distance`
(`total`).  Returns the emitted points and the final `total_distance`. -/
noncomputable def accumGo (prev : ℝ × ℝ) (total : ℝ) : List GPoint → List APoint × ℝ
  | [] => ([], total)
  | p :: rest =>
    let t := total + calculate_distance prev.1 prev.2 p.latitude p.longitude
    let r := accumGo (p.latitude, p.longitude) t rest
    (⟨p.latitude, p.longitude, p.elevation.getD 0, p.time, t⟩ :: r.1, r.2)

/-- The whole accumulation loop: on the first iteration `prev_lat is None`,
so `segment_distance = 0` and the first point is emitted with the initial
`total_distance = 0` (lines 64-100).  Returns `(all_points, total_distance)`. -/
noncomputable def convert_points : List GPoint → List APoint × ℝ
  | [] => ([], 0)
  | p :: rest =>
    let r := accumGo (p.latitude, p.longitude) 0 rest
    (⟨p.latitude, p.longitude, p.elevation.getD 0, p.time, 0⟩ :: r.1, r.2)

/-- The elevation-profile filter (lines 104-112): keeps the route points with
`point['elevation'] is not None and point['elevation'] > 0`.  In `all_points`
the elevation is never `None` (it was coerced to `0` on line 73), so the
filter reduces to strict positivity. -/
noncomputable def elevation_profile (all_points : List APoint) : List (ℝ × ℝ × Option String) :=
  (all_points.filter fun p => decide (0 < p.elevation)).map fun p => (p.distance, p.elevation, p.time)

/-- The route JSON structure (lines 115-120). -/
structure RouteJson where
  total_distance : ℝ
  start_time : Option String
  end_time : Option String
  points : List APoint

/-- The elevation JSON structure (lines 123-126). -/
structure ElevationJson where
  total_distance : ℝ
  points : List (ℝ × ℝ × Option String)

/-- `route_data` of `convert_gpx_to_json` (lines 115-120), as a function of
the (already reduced) point sequence. -/
noncomputable def route_data (pts : List GPoint) : RouteJson :=
  { total_distance := (convert_points pts).2
    start_time := ((convert_points pts).1.head?).elim none APoint.time
    end_time := ((convert_points pts).1.getLast?).elim none APoint.time
    points := (convert_points pts).1 }

/-- `elevation_data` of `convert_gpx_to_json` (lines 123-126). -/
noncomputable def elevation_data (pts : List GPoint) : ElevationJson :=
  { total_distance := (convert_points pts).2
    points := elevation_profile (convert_points pts).1 }

/-- Modelled from the spec: the Point Reducer (spec section 4.2) is invoked
by the repository as the external library call
`gpx.reduce_points(min_distance=min_distance)` (src/gpx_converter.py,
line 59), whose implementation is not part of this repository.  Walk helper:
a point is retained when its great-circle distance from the last retained
point is at least the threshold (already converted to kilometers), and the
final input point is retained regardless of spacing. -/
noncomputable def reduceGo (minKm : ℝ) (lastKept : GPoint) : List GPoint → List GPoint
  | [] => []
  | p :: rest =>
    if rest.isEmpty then [p]
    else if minKm ≤ calculate_distance lastKept.latitude lastKept.longitude p.latitude p.longitude then
      p :: reduceGo minKm p rest
    else
      reduceGo minKm lastKept rest

/-- Modelled from the spec: the Point Reducer contract of spec section 4.2
(implementation external to the repository, see `reduceGo`).  The first point
is always retained; a non-positive `minDistanceMeters` means no reduction;
the threshold is converted from meters to kilometers for comparison with the
Distance Function's output. -/
noncomputable def reduce_points (minDistanceMeters : ℝ) (points : List GPoint) : List GPoint :=
  if minDistanceMeters ≤ 0 then points
  else
    match points with
    | [] => []
    | p :: rest => p :: reduceGo (minDistanceMeters / 1000) p rest

/-! ## The Path Projector of `src/gpx_converter.py` -/

/-- Input of `create_svg_path_from_coordinates`: a dictionary with `lat` and
`lon` keys. -/
structure LatLon where
  lat : ℝ
  lon : ℝ

/-- One emitted SVG path command: `move = true` renders as `M x y`,
`move = false` as `L x y`.  The textual join with two-decimal formatting is
outside the numeric model. -/
structure PathCmd where
  move : Bool
  x : ℝ
  y : ℝ

def lldflt : LatLon := ⟨0, 0⟩

def pcdflt : PathCmd := ⟨false, 0, 0⟩

/-- Python's `min(...)` over a non-empty list (the `[]` value is never used:
the only caller returns beforehand on an empty list). -/
def listMin : List ℝ → ℝ
  | [] => 0
  | v :: vs => vs.foldl min v

/-- Python's `max(...)` over a non-empty list. -/
def listMax : List ℝ → ℝ
  | [] => 0
  | v :: vs => vs.foldl max v

/-- `create_svg_path_from_coordinates` (src/gpx_converter.py, lines 141-175).
The empty input returns the empty path before any min/max or division runs
(lines 151-152).  A zero longitude-span or latitude-span makes Python's float
division raise `ZeroDivisionError` on the first loop iteration; that
exception is modelled as `none`. -/
noncomputable def create_svg_path_from_coordinates (points : List LatLon) : Option (List PathCmd) :=
  match points with
  | [] => some []
  | _ :: _ =>
    let lats := points.map LatLon.lat
    let lons := points.map LatLon.lon
    let min_lat := listMin lats
    let max_lat := listMax lats
    let min_lon := listMin lons
    let max_lon := listMax lons
    if max_lon - min_lon = 0 ∨ max_lat - min_lat = 0 then none
    else
      some (points.enum.map fun ip =>
        { move := ip.1 == 0
          x := ((ip.2.lon - min_lon) / (max_lon - min_lon)) * 1000
          y := ((max_lat - ip.2.lat) / (max_lat - min_lat)) * 500 })

/-! ## Concrete inputs used by the witness theorems -/

/-- A concrete day-1 dataset: original distances `[0, 2, 5]`, total 5 km
(the spec's section 8 scenario). -/
def d1ex : RouteData :=
  { total_distance := some 5
    start_time := some "08:00"
    end_time := some "12:00"
    points :=
      [⟨1, 2, 100, some "08:00", some 0⟩,
       ⟨3, 4, 200, some "10:00", some 2⟩,
       ⟨5, 6, 300, some "12:00", some 5⟩] }

/-- A concrete day-2 dataset: original distances `[0, 3]`, total 3 km. -/
def d2ex : RouteData :=
  { total_distance := some 3
    start_time := some "09:00"
    end_time := some "14:00"
    points :=
      [⟨7, 8, 400, some "09:00", some 0⟩,
       ⟨9, 10, 500, some "14:00", some 3⟩] }

/-- A concrete dataset with an empty `points` list. -/
def d0ex : RouteData :=
  { total_distance := some 0
    start_time := none
    end_time := none
    points := [] }

/-- A concrete two-sample GPS input: one sample with elevation present and
one with elevation absent. -/
def gex : List GPoint :=
  [⟨45, 6, some 1200, some "08:00"⟩, ⟨45, 6, none, some "08:01"⟩]

/-- A concrete coordinate list with distinct latitudes and longitudes. -/
def llex : List LatLon :=
  [⟨0, 0⟩, ⟨1, 1⟩]

/-! ## Facts about the stitcher loops -/

theorem stitchDay1_length (cum : ℚ) (ps : List JPoint) :
    (stitchDay1 cum ps).1.length = ps.length := by
  induction ps generalizing cum with
  | nil => rfl
  | cons p rest ih => simpa [stitchDay1] using ih p.dist0

theorem stitchDay2_length (cum : ℚ) (ps : List JPoint) :
    (stitchDay2 cum ps).length = ps.length := by
  simp [stitchDay2]

/-- The point emitted by the Day-1 loop at index `i` copies the input point,
sets `day = 1`, `original_distance` to the input's stored distance, and
`distance` to the starting offset at `i = 0` and to the *previous* input
point's stored distance otherwise. -/
theorem stitchDay1_getD (cum : ℚ) (ps : List JPoint) (i : ℕ) (hi : i < ps.length) :
    (stitchDay1 cum ps).1.getD i cdflt =
      { lat := (ps.getD i jdflt).lat
        lon := (ps.getD i jdflt).lon
        elevation := (ps.getD i jdflt).elevation
        time := (ps.getD i jdflt).time
        day := 1
        original_distance := (ps.getD i jdflt).dist0
        distance := if i = 0 then cum else (ps.getD (i - 1) jdflt).dist0 } := by
  induction ps generalizing cum i with
  | nil => simp at hi
  | cons p rest ih =>
    cases i with
    | zero => simp [stitchDay1]
    | succ j =>
      have hj : j < rest.length := by simpa using hi
      have h := ih p.dist0 j hj
      cases j with
      | zero =>
        simpa [stitchDay1] using h
      | succ k =>
        simpa [stitchDay1] using h

/-- After the Day-1 loop, `cumulative_distance` holds the *last* input
point's stored distance (or the starting offset if the list was empty). -/
theorem stitchDay1_snd (cum : ℚ) (ps : List JPoint) :
    (stitchDay1 cum ps).2 = (ps.getLast?.map JPoint.dist0).getD cum := by
  induction ps generalizing cum with
  | nil => rfl
  | cons p rest ih =>
    cases rest with
    | nil => simp [stitchDay1, ih]
    | cons q t =>
      have h := ih p.dist0
      simpa [stitchDay1, List.getLast?_cons_cons] using h

/-- The point emitted by the Day-2 loop at index `i` copies the input point,
sets `day = 2`, `original_distance` to the input's stored distance, and
`distance` to the offset plus the input's stored distance. -/
theorem stitchDay2_getD (cum : ℚ) (ps : List JPoint) (i : ℕ) (hi : i < ps.length) :
    (stitchDay2 cum ps).getD i cdflt =
      { lat := (ps.getD i jdflt).lat
        lon := (ps.getD i jdflt).lon
        elevation := (ps.getD i jdflt).elevation
        time := (ps.getD i jdflt).time
        day := 2
        original_distance := (ps.getD i jdflt).dist0
        distance := cum + (ps.getD i jdflt).dist0 } := by
  induction ps generalizing i with
  | nil => simp at hi
  | cons p rest ih =>
    cases i with
    | zero => simp [stitchDay2]
    | succ j => simpa [stitchDay2] using ih j (by simpa using hi)

/-- On two loadable datasets with non-empty point lists, `combine_routes`
writes the combined dataset assembled on lines 69-80 of the source. -/
theorem combine_routes_eq (d1 d2 : RouteData) (h1 : d1.points ≠ []) (h2 : d2.points ≠ []) :
    combine_routes (some d1) (some d2) = some
      { total_distance := d1.total_distance.getD 0 + d2.total_distance.getD 0
        day1_distance := d1.total_distance.getD 0
        day2_distance := d2.total_distance.getD 0
        start_time := d1.start_time
        end_time := d2.end_time
        day1_start_index := 0
        day1_end_index := d1.points.length - 1
        day2_start_index := d1.points.length
        day2_end_index :=
          ((stitchDay1 0 d1.points).1 ++ stitchDay2 (stitchDay1 0 d1.points).2 d2.points).length - 1
        points := (stitchDay1 0 d1.points).1 ++ stitchDay2 (stitchDay1 0 d1.points).2 d2.points } := by
  simp [combine_routes, h1, h2]

/-- C1: for every pair of non-empty day datasets, stitching stamps each
day-1 point's `distance` with the running offset accumulated before reaching
that point — the first day-1 point gets `0`, each later day-1 point gets the
previous day-1 point's original distance — so when day 1 has at least two
points, the last day-1 point's emitted `distance` equals the second-to-last
day-1 point's original distance. -/
theorem day1_offset_stamping (d1 d2 : RouteData)
    (h1 : d1.points ≠ []) (h2 : d2.points ≠ []) :
    ∃ c, combine_routes (some d1) (some d2) = some c ∧
      (∀ i, i < d1.points.length →
        (c.points.getD i cdflt).day = 1 ∧
        (c.points.getD i cdflt).original_distance = (d1.points.getD i jdflt).dist0 ∧
        (c.points.getD i cdflt).distance =
          (if i = 0 then 0 else (d1.points.getD (i - 1) jdflt).dist0)) ∧
      (2 ≤ d1.points.length →
        (c.points.getD (d1.points.length - 1) cdflt).distance =
          (d1.points.getD (d1.points.length - 2) jdflt).dist0) := by
  refine ⟨_, combine_routes_eq d1 d2 h1 h2, ?_, ?_⟩
  · intro i hi
    have hlen : i < (stitchDay1 0 d1.points).1.length := by
      rw [stitchDay1_length]; exact hi
    rw [List.getD_append _ _ _ _ hlen, stitchDay1_getD 0 d1.points i hi]
    exact ⟨rfl, rfl, rfl⟩
  · intro h2le
    have hi : d1.points.length - 1 < d1.points.length := by omega
    have hlen : d1.points.length - 1 < (stitchDay1 0 d1.points).1.length := by
      rw [stitchDay1_length]; exact hi
    rw [List.getD_append _ _ _ _ hlen, stitchDay1_getD 0 d1.points _ hi]
    have hne : d1.points.length - 1 ≠ 0 := by omega
    simp [hne, Nat.sub_sub]

/-- Witness for C1 at the spec's section-8 scenario (day-1 original
distances `[0, 2, 5]`, day-2 original distances `[0, 3]`). -/
theorem day1_offset_stamping_witness :
    ∃ c, combine_routes (some d1ex) (some d2ex) = some c ∧
      (∀ i, i < d1ex.points.length →
        (c.points.getD i cdflt).day = 1 ∧
        (c.points.getD i cdflt).original_distance = (d1ex.points.getD i jdflt).dist0 ∧
        (c.points.getD i cdflt).distance =
          (if i = 0 then 0 else (d1ex.points.getD (i - 1) jdflt).dist0)) ∧
      (2 ≤ d1ex.points.length →
        (c.points.getD (d1ex.points.length - 1) cdflt).distance =
          (d1ex.points.getD (d1ex.points.length - 2) jdflt).dist0) :=
  day1_offset_stamping d1ex d2ex (by decide) (by decide)

/-- C2: for every pair of non-empty day datasets (satisfying the data-model
invariant of spec section 3, `total_distance == points[-1].distance`), each
day-2 point in the combined output has `day = 2`, `original_distance` equal
to its pre-stitch distance, and `distance` equal to day 1's `total_distance`
plus that point's pre-stitch distance.  The source adds
`cumulative_distance` (the last day-1 point's pre-stitch distance) on
line 65, which the invariant identifies with `day1.total_distance`. -/
theorem day2_distance_stamping (d1 d2 : RouteData)
    (h1 : d1.points ≠ []) (h2 : d2.points ≠ [])
    (hinv : d1.total_distance = some ((d1.points.getLast h1).dist0)) :
    ∃ c, combine_routes (some d1) (some d2) = some c ∧
      ∀ i, i < d2.points.length →
        (c.points.getD (d1.points.length + i) cdflt).day = 2 ∧
        (c.points.getD (d1.points.length + i) cdflt).original_distance =
          (d2.points.getD i jdflt).dist0 ∧
        (c.points.getD (d1.points.length + i) cdflt).distance =
          d1.total_distance.getD 0 + (d2.points.getD i jdflt).dist0 := by
  refine ⟨_, combine_routes_eq d1 d2 h1 h2, ?_⟩
  intro i hi
  have hlen : (stitchDay1 0 d1.points).1.length ≤ d1.points.length + i := by
    rw [stitchDay1_length]; omega
  have hidx : d1.points.length + i - (stitchDay1 0 d1.points).1.length = i := by
    rw [stitchDay1_length]; omega
  have hs : (stitchDay1 0 d1.points).2 = d1.total_distance.getD 0 := by
    rw [stitchDay1_snd, List.getLast?_eq_getLast _ h1, hinv]
    rfl
  rw [List.getD_append_right _ _ _ _ hlen, hidx, stitchDay2_getD _ _ i hi, hs]
  exact ⟨rfl, rfl, rfl⟩

/-- Witness for C2 at the spec's section-8 scenario. -/
theorem day2_distance_stamping_witness :
    ∃ c, combine_routes (some d1ex) (some d2ex) = some c ∧
      ∀ i, i < d2ex.points.length →
        (c.points.getD (d1ex.points.length + i) cdflt).day = 2 ∧
        (c.points.getD (d1ex.points.length + i) cdflt).original_distance =
          (d2ex.points.getD i jdflt).dist0 ∧
        (c.points.getD (d1ex.points.length + i) cdflt).distance =
          d1ex.total_distance.getD 0 + (d2ex.points.getD i jdflt).dist0 :=
  day2_distance_stamping d1ex d2ex (by decide) (by decide) (by decide)

/-- C4: for every pair of non-empty day datasets, the combined header fields
equal the specified aggregates: `total_distance` is the sum of the two
`total_distance` fields (not recomputed from geometry), `start_time` comes
from day 1, `end_time` from day 2, and the four index markers are computed
from point counts, so `day1_end_index + 1 = day2_start_index` and
`day2_end_index` is the combined point count minus one. -/
theorem combined_header_fields (d1 d2 : RouteData)
    (h1 : d1.points ≠ []) (h2 : d2.points ≠ [])
    (t1 t2 : ℚ) (ht1 : d1.total_distance = some t1) (ht2 : d2.total_distance = some t2) :
    ∃ c, combine_routes (some d1) (some d2) = some c ∧
      c.total_distance = t1 + t2 ∧
      c.start_time = d1.start_time ∧
      c.end_time = d2.end_time ∧
      c.day1_start_index = 0 ∧
      c.day1_end_index = d1.points.length - 1 ∧
      c.day2_start_index = d1.points.length ∧
      c.points.length = d1.points.length + d2.points.length ∧
      c.day2_end_index = c.points.length - 1 ∧
      c.day1_end_index + 1 = c.day2_start_index := by
  refine ⟨_, combine_routes_eq d1 d2 h1 h2, ?_, rfl, rfl, rfl, rfl, rfl, ?_, rfl, ?_⟩
  · rw [ht1, ht2]; rfl
  · simp [stitchDay1_length, stitchDay2_length]
  · have hpos : 1 ≤ d1.points.length := List.length_pos.mpr h1
    show (d1.points.length - 1) + 1 = d1.points.length
    omega

/-- Witness for C4 at the spec's section-8 scenario: totals 5 km and 3 km,
three day-1 points and two day-2 points. -/
theorem combined_header_fields_witness :
    ∃ c, combine_routes (some d1ex) (some d2ex) = some c ∧
      c.total_distance = 5 + 3 ∧
      c.start_time = d1ex.start_time ∧
      c.end_time = d2ex.end_time ∧
      c.day1_start_index = 0 ∧
      c.day1_end_index = d1ex.points.length - 1 ∧
      c.day2_start_index = d1ex.points.length ∧
      c.points.length = d1ex.points.length + d2ex.points.length ∧
      c.day2_end_index = c.points.length - 1 ∧
      c.day1_end_index + 1 = c.day2_start_index :=
  combined_header_fields d1ex d2ex (by decide) (by decide) 5 3 rfl rfl

/-- C6: stitching fails fast on a missing or empty day dataset — the
invocation produces no combined output (`none`), so no partially populated
combined dataset is ever written. -/
theorem empty_dataset_fast_fail :
    (∀ d2 : Option RouteData, combine_routes none d2 = none) ∧
    (∀ d1 : Option RouteData, combine_routes d1 none = none) ∧
    (∀ d1 d2 : RouteData, d1.points = [] ∨ d2.points = [] →
      combine_routes (some d1) (some d2) = none) := by
  refine ⟨fun d2 => rfl, fun d1 => ?_, fun d1 d2 h => ?_⟩
  · cases d1 <;> rfl
  · simp [combine_routes, h]

/-- Witness for C6: an empty day-1 point list aborts the stitch. -/
theorem empty_dataset_fast_fail_witness :
    combine_routes (some d0ex) (some d2ex) = none :=
  empty_dataset_fast_fail.2.2 d0ex d2ex (Or.inl rfl)

/-! ## The Distance Function -/

/-- Closed form of `calculate_distance` (the `let` chain zeta-reduced). -/
theorem calculate_distance_def (lat1 lon1 lat2 lon2 : ℝ) :
    calculate_distance lat1 lon1 lat2 lon2 =
      6371 * (2 * Real.arcsin (Real.sqrt
        (Real.sin ((radians lat2 - radians lat1) / 2) ^ 2 +
          Real.cos (radians lat1) * Real.cos (radians lat2) *
            Real.sin ((radians lon2 - radians lon1) / 2) ^ 2))) :=
  rfl

theorem calculate_distance_symm (lat1 lon1 lat2 lon2 : ℝ) :
    calculate_distance lat1 lon1 lat2 lon2 = calculate_distance lat2 lon2 lat1 lon1 := by
  rw [calculate_distance_def, calculate_distance_def]
  have hlat : Real.sin ((radians lat1 - radians lat2) / 2) ^ 2
      = Real.sin ((radians lat2 - radians lat1) / 2) ^ 2 := by
    rw [show (radians lat1 - radians lat2) / 2 = -((radians lat2 - radians lat1) / 2) by ring,
      Real.sin_neg]
    ring
  have hlon : Real.sin ((radians lon1 - radians lon2) / 2) ^ 2
      = Real.sin ((radians lon2 - radians lon1) / 2) ^ 2 := by
    rw [show (radians lon1 - radians lon2) / 2 = -((radians lon2 - radians lon1) / 2) by ring,
      Real.sin_neg]
    ring
  rw [hlat, hlon, mul_comm (Real.cos (radians lat2)) (Real.cos (radians lat1))]

theorem calculate_distance_nonneg (lat1 lon1 lat2 lon2 : ℝ) :
    0 ≤ calculate_distance lat1 lon1 lat2 lon2 := by
  rw [calculate_distance_def]
  have h : (0 : ℝ) ≤ Real.arcsin (Real.sqrt
      (Real.sin ((radians lat2 - radians lat1) / 2) ^ 2 +
        Real.cos (radians lat1) * Real.cos (radians lat2) *
          Real.sin ((radians lon2 - radians lon1) / 2) ^ 2)) :=
    Real.arcsin_nonneg.mpr (Real.sqrt_nonneg _)
  have h2 : (0 : ℝ) ≤ 2 := by norm_num
  have h6 : (0 : ℝ) ≤ 6371 := by norm_num
  exact mul_nonneg h6 (mul_nonneg h2 h)

theorem calculate_distance_self (lat lon : ℝ) :
    calculate_distance lat lon lat lon = 0 := by
  rw [calculate_distance_def]
  simp

/-- C9: the Distance Function is symmetric, non-negative, and zero on a pair
of identical coordinates, for all finite latitude/longitude inputs. -/
theorem calculate_distance_metric_props :
    (∀ lat1 lon1 lat2 lon2 : ℝ,
      calculate_distance lat1 lon1 lat2 lon2 = calculate_distance lat2 lon2 lat1 lon1) ∧
    (∀ lat1 lon1 lat2 lon2 : ℝ, 0 ≤ calculate_distance lat1 lon1 lat2 lon2) ∧
    (∀ lat lon : ℝ, calculate_distance lat lon lat lon = 0) :=
  ⟨calculate_distance_symm, calculate_distance_nonneg, calculate_distance_self⟩

/-! ## The Track Accumulator -/

theorem getLast?_cons_eq {α : Type} (a : α) (l : List α) :
    (a :: l).getLast? = some (l.getLast?.getD a) := by
  induction l generalizing a with
  | nil => rfl
  | cons b t ih =>
    rw [List.getLast?_cons_cons, ih b]
    simp

theorem accumGo_length (prev : ℝ × ℝ) (total : ℝ) (l : List GPoint) :
    (accumGo prev total l).1.length = l.length := by
  induction l generalizing prev total with
  | nil => rfl
  | cons p rest ih => simpa [accumGo] using ih _ _

theorem convert_points_length (pts : List GPoint) :
    (convert_points pts).1.length = pts.length := by
  cases pts with
  | nil => rfl
  | cons p rest => simpa [convert_points] using accumGo_length _ 0 rest

theorem accumGo_getD_fields (l : List GPoint) (prev : ℝ × ℝ) (total : ℝ)
    (i : ℕ) (hi : i < l.length) :
    ((accumGo prev total l).1.getD i adflt).lat = (l.getD i gdflt).latitude ∧
    ((accumGo prev total l).1.getD i adflt).lon = (l.getD i gdflt).longitude ∧
    ((accumGo prev total l).1.getD i adflt).elevation = ((l.getD i gdflt).elevation).getD 0 ∧
    ((accumGo prev total l).1.getD i adflt).time = (l.getD i gdflt).time := by
  induction l generalizing prev total i with
  | nil => simp at hi
  | cons p rest ih =>
    cases i with
    | zero => simp [accumGo]
    | succ j => simpa [accumGo] using ih _ _ j (by simpa using hi)

theorem convert_points_getD_fields (pts : List GPoint) (i : ℕ) (hi : i < pts.length) :
    ((convert_points pts).1.getD i adflt).lat = (pts.getD i gdflt).latitude ∧
    ((convert_points pts).1.getD i adflt).lon = (pts.getD i gdflt).longitude ∧
    ((convert_points pts).1.getD i adflt).elevation = ((pts.getD i gdflt).elevation).getD 0 ∧
    ((convert_points pts).1.getD i adflt).time = (pts.getD i gdflt).time := by
  cases pts with
  | nil => simp at hi
  | cons p rest =>
    cases i with
    | zero => simp [convert_points]
    | succ j => simpa [convert_points] using accumGo_getD_fields rest _ 0 j (by simpa using hi)

theorem accumGo_dist_step (l : List GPoint) (prev : ℝ × ℝ) (total : ℝ)
    (i : ℕ) (hi : i + 1 < l.length) :
    ((accumGo prev total l).1.getD (i + 1) adflt).distance =
      ((accumGo prev total l).1.getD i adflt).distance +
        calculate_distance (l.getD i gdflt).latitude (l.getD i gdflt).longitude
          (l.getD (i + 1) gdflt).latitude (l.getD (i + 1) gdflt).longitude := by
  induction l generalizing prev total i with
  | nil => simp at hi
  | cons p rest ih =>
    cases i with
    | zero =>
      cases rest with
      | nil => simp at hi
      | cons q t => simp [accumGo]
    | succ j =>
      have h := ih (p.latitude, p.longitude)
        (total + calculate_distance prev.1 prev.2 p.latitude p.longitude) j (by simpa using hi)
      simpa [accumGo] using h

theorem convert_points_dist_step (pts : List GPoint) (i : ℕ) (hi : i + 1 < pts.length) :
    ((convert_points pts).1.getD (i + 1) adflt).distance =
      ((convert_points pts).1.getD i adflt).distance +
        calculate_distance (pts.getD i gdflt).latitude (pts.getD i gdflt).longitude
          (pts.getD (i + 1) gdflt).latitude (pts.getD (i + 1) gdflt).longitude := by
  cases pts with
  | nil => simp at hi
  | cons p rest =>
    cases i with
    | zero =>
      cases rest with
      | nil => simp at hi
      | cons q t => simp [convert_points, accumGo]
    | succ j =>
      have h := accumGo_dist_step rest (p.latitude, p.longitude) 0 j (by simpa using hi)
      simpa [convert_points] using h

theorem accumGo_snd (l : List GPoint) (prev : ℝ × ℝ) (total : ℝ) :
    (accumGo prev total l).2 = (((accumGo prev total l).1.map APoint.distance).getLast?).getD total := by
  induction l generalizing prev total with
  | nil => rfl
  | cons p rest ih =>
    simp only [accumGo, List.map_cons, getLast?_cons_eq, Option.getD_some]
    exact ih _ _

theorem convert_points_total_eq_last (pts : List GPoint) (h : pts ≠ []) :
    ((convert_points pts).1.map APoint.distance).getLast? = some ((convert_points pts).2) := by
  cases pts with
  | nil => exact absurd rfl h
  | cons p rest =>
    simp only [convert_points, List.map_cons, getLast?_cons_eq, Option.getD_some]
    rw [accumGo_snd]

theorem convert_points_chain (pts : List GPoint) :
    List.Chain' (· ≤ ·) ((convert_points pts).1.map APoint.distance) := by
  rw [List.chain'_iff_get]
  intro i hlt
  have hlen : ((convert_points pts).1.map APoint.distance).length = pts.length := by
    rw [List.length_map, convert_points_length]
  have h1 : i < (convert_points pts).1.length := by
    rw [convert_points_length]; omega
  have h2 : i + 1 < (convert_points pts).1.length := by
    rw [convert_points_length]; omega
  rw [List.get_eq_getElem, List.get_eq_getElem, List.getElem_map, List.getElem_map,
    ← List.getD_eq_getElem _ adflt h1, ← List.getD_eq_getElem _ adflt h2]
  rw [convert_points_dist_step pts i (by rw [← convert_points_length pts]; exact h2)]
  exact le_add_of_nonneg_right (calculate_distance_nonneg _ _ _ _)

/-- C3: for every non-empty input point sequence, the Track Accumulator
assigns the first point `distance = 0`, each later point's `distance` is the
previous point's `distance` plus the great-circle distance from the previous
point (hence the emitted `distance` sequence is non-decreasing), and the
route dataset's `total_distance` equals the last point's `distance`. -/
theorem track_accumulator_props (pts : List GPoint) (h : pts ≠ []) :
    (((route_data pts).points.map APoint.distance).head? = some 0) ∧
    List.Chain' (· ≤ ·) ((route_data pts).points.map APoint.distance) ∧
    (∀ i, i + 1 < pts.length →
      ((route_data pts).points.getD (i + 1) adflt).distance =
        ((route_data pts).points.getD i adflt).distance +
          calculate_distance (pts.getD i gdflt).latitude (pts.getD i gdflt).longitude
            (pts.getD (i + 1) gdflt).latitude (pts.getD (i + 1) gdflt).longitude) ∧
    (((route_data pts).points.map APoint.distance).getLast? =
      some ((route_data pts).total_distance)) := by
  refine ⟨?_, convert_points_chain pts, convert_points_dist_step pts,
    convert_points_total_eq_last pts h⟩
  cases pts with
  | nil => exact absurd rfl h
  | cons p rest => simp [route_data, convert_points]

/-- Witness for C3 at a concrete two-sample input. -/
theorem track_accumulator_props_witness :
    (((route_data gex).points.map APoint.distance).head? = some 0) ∧
    List.Chain' (· ≤ ·) ((route_data gex).points.map APoint.distance) ∧
    (∀ i, i + 1 < gex.length →
      ((route_data gex).points.getD (i + 1) adflt).distance =
        ((route_data gex).points.getD i adflt).distance +
          calculate_distance (gex.getD i gdflt).latitude (gex.getD i gdflt).longitude
            (gex.getD (i + 1) gdflt).latitude (gex.getD (i + 1) gdflt).longitude) ∧
    (((route_data gex).points.map APoint.distance).getLast? =
      some ((route_data gex).total_distance)) :=
  track_accumulator_props gex (by simp [gex])

/-! ## The elevation profile -/

/-- C5: the elevation dataset contains exactly the distance-stamped route
points whose input elevation is present and strictly positive; an absent
elevation is stored in the route dataset as `0` and excluded from the
profile (as is any elevation `≤ 0`), and the profile's point count is at
most the route dataset's point count. -/
theorem elevation_profile_props (pts : List GPoint) :
    ((elevation_data pts).points.length ≤ (route_data pts).points.length) ∧
    ((elevation_data pts).points =
      (((route_data pts).points.filter fun p => decide (0 < p.elevation)).map
        fun p => (p.distance, p.elevation, p.time))) ∧
    ((route_data pts).points.length = pts.length) ∧
    (∀ i, i < pts.length →
      ((route_data pts).points.getD i adflt).elevation = ((pts.getD i gdflt).elevation).getD 0 ∧
      ((0 < ((route_data pts).points.getD i adflt).elevation) ↔
        ∃ e, (pts.getD i gdflt).elevation = some e ∧ 0 < e)) := by
  refine ⟨?_, rfl, convert_points_length pts, ?_⟩
  · have hle := List.length_filter_le (fun p => decide (0 < p.elevation)) (convert_points pts).1
    simpa [elevation_data, elevation_profile, route_data] using hle
  · intro i hi
    have hfields := convert_points_getD_fields pts i hi
    refine ⟨hfields.2.2.1, ?_⟩
    rw [show ((route_data pts).points.getD i adflt).elevation =
      ((pts.getD i gdflt).elevation).getD 0 from hfields.2.2.1]
    cases helev : (pts.getD i gdflt).elevation with
    | none => simp
    | some e => simp

/-- Witness for C5 at a concrete two-sample input (one elevation present and
positive, one absent). -/
theorem elevation_profile_props_witness :
    ((elevation_data gex).points.length ≤ (route_data gex).points.length) ∧
    ((elevation_data gex).points =
      (((route_data gex).points.filter fun p => decide (0 < p.elevation)).map
        fun p => (p.distance, p.elevation, p.time))) ∧
    ((route_data gex).points.length = gex.length) ∧
    (∀ i, i < gex.length →
      ((route_data gex).points.getD i adflt).elevation = ((gex.getD i gdflt).elevation).getD 0 ∧
      ((0 < ((route_data gex).points.getD i adflt).elevation) ↔
        ∃ e, (gex.getD i gdflt).elevation = some e ∧ 0 < e)) :=
  elevation_profile_props gex

/-! ## The Point Reducer (spec-modelled, section 4.2) -/

theorem reduceGo_singleton (minKm : ℝ) (lastKept p : GPoint) :
    reduceGo minKm lastKept [p] = [p] :=
  rfl

theorem reduceGo_cons_cons (minKm : ℝ) (lastKept p q : GPoint) (t : List GPoint) :
    reduceGo minKm lastKept (p :: q :: t) =
      if minKm ≤ calculate_distance lastKept.latitude lastKept.longitude p.latitude p.longitude
      then p :: reduceGo minKm p (q :: t)
      else reduceGo minKm lastKept (q :: t) :=
  rfl

theorem reduceGo_sublist (minKm : ℝ) (l : List GPoint) (lastKept : GPoint) :
    (reduceGo minKm lastKept l).Sublist l := by
  induction l generalizing lastKept with
  | nil => simp [reduceGo]
  | cons p rest ih =>
    cases rest with
    | nil => rw [reduceGo_singleton]
    | cons q t =>
      rw [reduceGo_cons_cons]
      split
      · exact List.Sublist.cons₂ p (ih p)
      · exact List.Sublist.cons p (ih lastKept)

theorem reduceGo_getLast? (minKm : ℝ) (l : List GPoint) (lastKept : GPoint) (h : l ≠ []) :
    (reduceGo minKm lastKept l).getLast? = l.getLast? := by
  induction l generalizing lastKept with
  | nil => exact absurd rfl h
  | cons p rest ih =>
    cases rest with
    | nil => rw [reduceGo_singleton]
    | cons q t =>
      rw [reduceGo_cons_cons]
      split
      · have h1 : (q :: t).getLast? = some ((t.getLast?).getD q) := getLast?_cons_eq q t
        have h2 : (reduceGo minKm p (q :: t)).getLast? = some ((t.getLast?).getD q) := by
          rw [ih p (by simp), h1]
        rw [getLast?_cons_eq, h2, List.getLast?_cons_cons, h1]
        rfl
      · rw [ih lastKept (by simp), List.getLast?_cons_cons]

/-- C7: for every non-empty input and every `minDistanceMeters`, the Point
Reducer's output is an order-preserving subsequence of the input that
retains the first and the last input point — the last one regardless of its
spacing from the last retained point.  (spec-modelled: the reducer is the
external `gpx.reduce_points` call, embedded from spec section 4.2.) -/
theorem point_reducer_endpoints (m : ℝ) (pts : List GPoint) (h : pts ≠ []) :
    (reduce_points m pts).Sublist pts ∧
    (reduce_points m pts).head? = pts.head? ∧
    (reduce_points m pts).getLast? = pts.getLast? := by
  cases pts with
  | nil => exact absurd rfl h
  | cons p rest =>
    by_cases hm : m ≤ 0
    · rw [show reduce_points m (p :: rest) = p :: rest from by simp [reduce_points, hm]]
      exact ⟨List.Sublist.refl _, rfl, rfl⟩
    · rw [show reduce_points m (p :: rest) = p :: reduceGo (m / 1000) p rest from by
        simp [reduce_points, hm]]
      refine ⟨List.Sublist.cons₂ p (reduceGo_sublist _ rest p), rfl, ?_⟩
      cases rest with
      | nil => rfl
      | cons q t =>
        have h1 : (q :: t).getLast? = some ((t.getLast?).getD q) := getLast?_cons_eq q t
        have h2 : (reduceGo (m / 1000) p (q :: t)).getLast? = some ((t.getLast?).getD q) := by
          rw [reduceGo_getLast? _ _ _ (by simp), h1]
        rw [getLast?_cons_eq, h2, List.getLast?_cons_cons, h1]
        rfl

/-- Witness for C7 at a concrete two-sample input and a 1-meter threshold
(the two samples are closer than the threshold, so the terminus is retained
by the forced-retention rule). -/
theorem point_reducer_endpoints_witness :
    (reduce_points 1 gex).Sublist gex ∧
    (reduce_points 1 gex).head? = gex.head? ∧
    (reduce_points 1 gex).getLast? = gex.getLast? :=
  point_reducer_endpoints 1 gex (by simp [gex])

/-! ## The Path Projector -/

theorem foldl_min_le (l : List ℝ) : ∀ x : ℝ, l.foldl min x ≤ x := by
  induction l with
  | nil => intro x; simp
  | cons v vs ih => intro x; exact le_trans (ih (min x v)) (min_le_left x v)

theorem foldl_min_le_mem (l : List ℝ) : ∀ x a : ℝ, a ∈ l → l.foldl min x ≤ a := by
  induction l with
  | nil => intro x a ha; simp at ha
  | cons v vs ih =>
    intro x a ha
    rcases List.mem_cons.mp ha with h | h
    · subst h; exact le_trans (foldl_min_le vs (min x a)) (min_le_right x a)
    · exact ih (min x v) a h

theorem le_foldl_max (l : List ℝ) : ∀ x : ℝ, x ≤ l.foldl max x := by
  induction l with
  | nil => intro x; simp
  | cons v vs ih => intro x; exact le_trans (le_max_left x v) (ih (max x v))

theorem le_foldl_max_mem (l : List ℝ) : ∀ x a : ℝ, a ∈ l → a ≤ l.foldl max x := by
  induction l with
  | nil => intro x a ha; simp at ha
  | cons v vs ih =>
    intro x a ha
    rcases List.mem_cons.mp ha with h | h
    · subst h; exact le_trans (le_max_right x a) (le_foldl_max vs (max x a))
    · exact ih (max x v) a h

theorem listMin_le (l : List ℝ) (a : ℝ) (ha : a ∈ l) : listMin l ≤ a := by
  cases l with
  | nil => simp at ha
  | cons v vs =>
    rcases List.mem_cons.mp ha with h | h
    · subst h; exact foldl_min_le vs a
    · exact foldl_min_le_mem vs v a h

theorem le_listMax (l : List ℝ) (a : ℝ) (ha : a ∈ l) : a ≤ listMax l := by
  cases l with
  | nil => simp at ha
  | cons v vs =>
    rcases List.mem_cons.mp ha with h | h
    · subst h; exact le_foldl_max vs a
    · exact le_foldl_max_mem vs v a h

theorem span_pos_of_two_ne (l : List ℝ) (a b : ℝ) (ha : a ∈ l) (hb : b ∈ l) (hne : a ≠ b) :
    0 < listMax l - listMin l := by
  rcases lt_or_gt_of_ne hne with hlt | hlt
  · have h1 : listMin l ≤ a := listMin_le l a ha
    have h2 : b ≤ listMax l := le_listMax l b hb
    linarith
  · have h1 : listMin l ≤ b := listMin_le l b hb
    have h2 : a ≤ listMax l := le_listMax l a ha
    linarith

/-- One-step unfolding of `create_svg_path_from_coordinates` on a non-empty
input. -/
theorem create_svg_cons_eq (p : LatLon) (rest : List LatLon) :
    create_svg_path_from_coordinates (p :: rest) =
      if listMax ((p :: rest).map LatLon.lon) - listMin ((p :: rest).map LatLon.lon) = 0 ∨
          listMax ((p :: rest).map LatLon.lat) - listMin ((p :: rest).map LatLon.lat) = 0
      then none
      else
        some ((p :: rest).enum.map fun ip =>
          { move := ip.1 == 0
            x := ((ip.2.lon - listMin ((p :: rest).map LatLon.lon)) /
              (listMax ((p :: rest).map LatLon.lon) - listMin ((p :: rest).map LatLon.lon))) * 1000
            y := ((listMax ((p :: rest).map LatLon.lat) - ip.2.lat) /
              (listMax ((p :: rest).map LatLon.lat) - listMin ((p :: rest).map LatLon.lat))) * 500 }) :=
  rfl

/-- A zero longitude-span or latitude-span on a non-empty input reaches the
division by zero (modelled as `none`). -/
theorem create_svg_none_of_spans (ps : List LatLon) (hne : ps ≠ [])
    (h : listMax (ps.map LatLon.lon) - listMin (ps.map LatLon.lon) = 0 ∨
        listMax (ps.map LatLon.lat) - listMin (ps.map LatLon.lat) = 0) :
    create_svg_path_from_coordinates ps = none := by
  cases ps with
  | nil => exact absurd rfl hne
  | cons p rest => rw [create_svg_cons_eq, if_pos h]

theorem enum_map_getD {β : Type} (ps : List LatLon) (f : ℕ × LatLon → β) (d : β)
    (i : ℕ) (hi : i < ps.length) :
    (ps.enum.map f).getD i d = f (i, ps.getD i lldflt) := by
  have h1 : i < (ps.enum.map f).length := by simpa [List.enum_length] using hi
  have h2 : i < ps.enum.length := by simpa [List.enum_length] using hi
  rw [List.getD_eq_getElem _ d h1, List.getElem_map, List.getElem_enum,
    List.getD_eq_getElem _ lldflt hi]

/-- C8: on any point list whose latitudes are not all equal and whose
longitudes are not all equal, the Path Projector succeeds and emits one
command per point — a move-to first and line-to afterwards — mapping each
longitude linearly into `x ∈ [0, 1000]` and each latitude into
`y ∈ [0, 500]` with inverted orientation (a point at the maximum latitude
gets `y = 0`); and on non-empty degenerate input (one shared latitude or
one shared longitude) the division by zero is reachable (`none`). -/
theorem svg_projector_props :
    (∀ ps : List LatLon,
      (∃ p, p ∈ ps ∧ ∃ q, q ∈ ps ∧ p.lat ≠ q.lat) →
      (∃ p, p ∈ ps ∧ ∃ q, q ∈ ps ∧ p.lon ≠ q.lon) →
      ∃ cmds, create_svg_path_from_coordinates ps = some cmds ∧
        cmds.length = ps.length ∧
        (∀ i, i < cmds.length → ((cmds.getD i pcdflt).move = true ↔ i = 0)) ∧
        (∀ i, i < ps.length →
          (cmds.getD i pcdflt).x = ((ps.getD i lldflt).lon - listMin (ps.map LatLon.lon)) /
            (listMax (ps.map LatLon.lon) - listMin (ps.map LatLon.lon)) * 1000 ∧
          (cmds.getD i pcdflt).y = (listMax (ps.map LatLon.lat) - (ps.getD i lldflt).lat) /
            (listMax (ps.map LatLon.lat) - listMin (ps.map LatLon.lat)) * 500) ∧
        (∀ i, i < ps.length →
          0 ≤ (cmds.getD i pcdflt).x ∧ (cmds.getD i pcdflt).x ≤ 1000 ∧
          0 ≤ (cmds.getD i pcdflt).y ∧ (cmds.getD i pcdflt).y ≤ 500) ∧
        (∀ i, i < ps.length → (ps.getD i lldflt).lat = listMax (ps.map LatLon.lat) →
          (cmds.getD i pcdflt).y = 0)) ∧
    (∃ ps : List LatLon, ps ≠ [] ∧ (∀ p, p ∈ ps → ∀ q, q ∈ ps → p.lat = q.lat) ∧
      create_svg_path_from_coordinates ps = none) ∧
    (∃ ps : List LatLon, ps ≠ [] ∧ (∀ p, p ∈ ps → ∀ q, q ∈ ps → p.lon = q.lon) ∧
      create_svg_path_from_coordinates ps = none) := by
  refine ⟨?_, ?_, ?_⟩
  · rintro ps ⟨p1, hp1, q1, hq1, hne1⟩ ⟨p2, hp2, q2, hq2, hne2⟩
    have hlatpos : 0 < listMax (ps.map LatLon.lat) - listMin (ps.map LatLon.lat) :=
      span_pos_of_two_ne _ _ _ (List.mem_map_of_mem _ hp1) (List.mem_map_of_mem _ hq1) hne1
    have hlonpos : 0 < listMax (ps.map LatLon.lon) - listMin (ps.map LatLon.lon) :=
      span_pos_of_two_ne _ _ _ (List.mem_map_of_mem _ hp2) (List.mem_map_of_mem _ hq2) hne2
    refine ⟨ps.enum.map fun ip =>
        { move := ip.1 == 0
          x := ((ip.2.lon - listMin (ps.map LatLon.lon)) /
            (listMax (ps.map LatLon.lon) - listMin (ps.map LatLon.lon))) * 1000
          y := ((listMax (ps.map LatLon.lat) - ip.2.lat) /
            (listMax (ps.map LatLon.lat) - listMin (ps.map LatLon.lat))) * 500 },
      ?_, ?_, ?_, ?_, ?_, ?_⟩
    · cases ps with
      | nil => simp at hp1
      | cons h0 t0 =>
        rw [create_svg_cons_eq, if_neg (not_or.mpr ⟨ne_of_gt hlonpos, ne_of_gt hlatpos⟩)]
    · simp [List.enum_length]
    · intro i hi
      have hi2 : i < ps.length := by simpa [List.enum_length] using hi
      rw [enum_map_getD ps _ pcdflt i hi2]
      simp
    · intro i hi
      rw [enum_map_getD ps _ pcdflt i hi]
      exact ⟨rfl, rfl⟩
    · intro i hi
      rw [enum_map_getD ps _ pcdflt i hi]
      have hmem : ps.getD i lldflt ∈ ps := by
        rw [List.getD_eq_getElem _ lldflt hi]
        exact List.getElem_mem _
      have hlon1 : listMin (ps.map LatLon.lon) ≤ (ps.getD i lldflt).lon :=
        listMin_le _ _ (List.mem_map_of_mem _ hmem)
      have hlon2 : (ps.getD i lldflt).lon ≤ listMax (ps.map LatLon.lon) :=
        le_listMax _ _ (List.mem_map_of_mem _ hmem)
      have hlat1 : listMin (ps.map LatLon.lat) ≤ (ps.getD i lldflt).lat :=
        listMin_le _ _ (List.mem_map_of_mem _ hmem)
      have hlat2 : (ps.getD i lldflt).lat ≤ listMax (ps.map LatLon.lat) :=
        le_listMax _ _ (List.mem_map_of_mem _ hmem)
      dsimp only
      refine ⟨?_, ?_, ?_, ?_⟩
      · exact mul_nonneg (div_nonneg (by linarith) (le_of_lt hlonpos)) (by norm_num)
      · have hq : ((ps.getD i lldflt).lon - listMin (ps.map LatLon.lon)) /
            (listMax (ps.map LatLon.lon) - listMin (ps.map LatLon.lon)) ≤ 1 :=
          (div_le_one hlonpos).mpr (by linarith)
        have h1000 : (0 : ℝ) ≤ 1000 := by norm_num
        have hmul := mul_le_mul_of_nonneg_right hq h1000
        simpa using hmul
      · exact mul_nonneg (div_nonneg (by linarith) (le_of_lt hlatpos)) (by norm_num)
      · have hq : (listMax (ps.map LatLon.lat) - (ps.getD i lldflt).lat) /
            (listMax (ps.map LatLon.lat) - listMin (ps.map LatLon.lat)) ≤ 1 :=
          (div_le_one hlatpos).mpr (by linarith)
        have h500 : (0 : ℝ) ≤ 500 := by norm_num
        have hmul := mul_le_mul_of_nonneg_right hq h500
        simpa using hmul
    · intro i hi hmax
      rw [enum_map_getD ps _ pcdflt i hi]
      dsimp only
      rw [hmax, sub_self, zero_div, zero_mul]
  · refine ⟨[⟨0, 0⟩, ⟨0, 1⟩], by simp, ?_, ?_⟩
    · intro a ha b hb
      simp only [List.mem_cons, List.not_mem_nil, or_false] at ha hb
      rcases ha with rfl | rfl <;> rcases hb with rfl | rfl <;> rfl
    · refine create_svg_none_of_spans _ (by simp) (Or.inr ?_)
      norm_num [listMin, listMax]
  · refine ⟨[⟨0, 0⟩, ⟨1, 0⟩], by simp, ?_, ?_⟩
    · intro a ha b hb
      simp only [List.mem_cons, List.not_mem_nil, or_false] at ha hb
      rcases ha with rfl | rfl <;> rcases hb with rfl | rfl <;> rfl
    · refine create_svg_none_of_spans _ (by simp) (Or.inl ?_)
      norm_num [listMin, listMax]

/-- Witness for C8 at a concrete two-point input with distinct latitudes and
longitudes. -/
theorem svg_projector_props_witness :
    ∃ cmds, create_svg_path_from_coordinates llex = some cmds ∧
      cmds.length = llex.length ∧
      (∀ i, i < cmds.length → ((cmds.getD i pcdflt).move = true ↔ i = 0)) ∧
      (∀ i, i < llex.length →
        (cmds.getD i pcdflt).x = ((llex.getD i lldflt).lon - listMin (llex.map LatLon.lon)) /
          (listMax (llex.map LatLon.lon) - listMin (llex.map LatLon.lon)) * 1000 ∧
        (cmds.getD i pcdflt).y = (listMax (llex.map LatLon.lat) - (llex.getD i lldflt).lat) /
          (listMax (llex.map LatLon.lat) - listMin (llex.map LatLon.lat)) * 500) ∧
      (∀ i, i < llex.length →
        0 ≤ (cmds.getD i pcdflt).x ∧ (cmds.getD i pcdflt).x ≤ 1000 ∧
        0 ≤ (cmds.getD i pcdflt).y ∧ (cmds.getD i pcdflt).y ≤ 500) ∧
      (∀ i, i < llex.length → (llex.getD i lldflt).lat = listMax (llex.map LatLon.lat) →
        (cmds.getD i pcdflt).y = 0) :=
  svg_projector_props.1 llex
    ⟨⟨0, 0⟩, by simp [llex], ⟨1, 1⟩, by simp [llex], by norm_num⟩
    ⟨⟨0, 0⟩, by simp [llex], ⟨1, 1⟩, by simp [llex], by norm_num⟩

/-- C10: the Path Projector returns the empty path on the empty input —
the empty case is handled before the min/max and division operations run. -/
theorem svg_empty_input :
    create_svg_path_from_coordinates ([] : List LatLon) = some [] :=
  rfl
